import Mathlib

/-!
Verification of the PocketPod tunnel supervisor (session-based v2
implementation in `server/podman_tunnel_test.go`, second compilation unit,
together with `server/podman_workspace.go` call sites).

Shallow embedding conventions:
* Go strings are Lean `String`; byte-level operations are modelled on
  `String.data : List Char` (all strings the supervisor manipulates are
  ASCII, where Go bytes and runes coincide).
* Effectful calls (`runPodmanCommand`, `hasVSCodeToken`) are modelled by
  passing their results as explicit parameters; `Option`/`execOutcome`
  model the `(output, err)` pairs, `none`/`.fail` standing for `err != nil`.
* The `Debug *workspaceTunnelDebug` pointer field is modelled by an
  identity token (`Option Nat`), because Go `==` on `podmanTunnelState`
  compares the pointer, not the pointed-to value.  No claim inspects the
  debug contents.
* The monitor's wall clock is modelled in ticks of the 3 s poll interval:
  `time.Since(lastProgress) > tunnelProgressTimeout` (120 s) becomes
  `tunnelTimeoutTicks < now - lastProgress` with `tunnelTimeoutTicks = 40`.
-/

/-! ## Go string primitives -/

/-- Whitespace set of Go `strings.TrimSpace` (ASCII part): space, \t, \n,
\v, \f, \r. -/
def goIsSpace (c : Char) : Bool :=
  c = ' ' || c = '\t' || c = '\n' || c = '\x0b' || c = '\x0c' || c = '\r'

/-- Trim `goIsSpace` characters from both ends of a character list. -/
def trimChars (cs : List Char) : List Char :=
  ((cs.dropWhile goIsSpace).reverse.dropWhile goIsSpace).reverse

/-- Go `strings.TrimSpace`. -/
def goTrimSpace (s : String) : String :=
  String.mk (trimChars s.data)

/-- Go `strings.Split` for a single-character separator. -/
def splitChar (sep : Char) : List Char → List (List Char)
  | [] => [[]]
  | c :: cs =>
    let r := splitChar sep cs
    if c = sep then [] :: r
    else
      match r with
      | [] => [[c]]
      | p :: ps => (c :: p) :: ps

/-- Go `strings.HasPrefix` on character lists. -/
def strStartsWith : List Char → List Char → Bool
  | _, [] => true
  | [], _ :: _ => false
  | c :: cs, p :: ps => c = p && strStartsWith cs ps

/-- Go `strings.TrimRight(s, "/")` style single-character right trim. -/
def trimRightChar (cs : List Char) (c : Char) : List Char :=
  (cs.reverse.dropWhile (fun d => d = c)).reverse

/-- Go `strings.ToLower` (ASCII). -/
def goToLower (s : String) : String :=
  String.mk (s.data.map Char.toLower)

/-- Go `strings.ToUpper` (ASCII). -/
def goToUpper (s : String) : String :=
  String.mk (s.data.map Char.toUpper)

/-! ## Data model (`podman_tunnel_test.go` lines 321-381) -/

def tunnelStatusReady : String := "ready"
def tunnelStatusStarting : String := "starting"
def tunnelStatusBlocked : String := "blocked"
def tunnelStatusFailed : String := "failed"

def tunnelAuthRequiredMessage : String := "Authentication required"

/-- `tunnelProgressTimeout / tunnelPollInterval = 120 s / 3 s` measured in
poll ticks. -/
def tunnelTimeoutTicks : Nat := 40

/-- `podmanTunnelState`.  `Debug` is a pointer in Go and participates in
`==` by identity, hence the identity token model. -/
structure podmanTunnelState where
  Status : String
  Code : String
  Message : String
  Debug : Option Nat
deriving DecidableEq, Repr

/-- `tunnelHealth` (the Health Prober output). -/
structure tunnelHealth where
  processAlive : Bool
  tokenPresent : Bool
  authRequired : Bool
  deviceCode : String
deriving DecidableEq, Repr

/-! ## The health-to-status map (`(m *tunnelMonitor) evaluateHealth`) -/

def evaluateHealth (health : tunnelHealth) : String :=
  if !health.processAlive then tunnelStatusFailed
  else if health.tokenPresent then tunnelStatusReady
  else if health.authRequired then tunnelStatusBlocked
  else tunnelStatusStarting

/-- `buildTunnelStateFromHealth`. -/
def buildTunnelStateFromHealth (state : String) (health : tunnelHealth) :
    podmanTunnelState :=
  let result : podmanTunnelState :=
    { Status := state, Code := "", Message := "", Debug := none }
  if health.authRequired && health.deviceCode ≠ "" then
    { result with Code := health.deviceCode, Message := tunnelAuthRequiredMessage }
  else result

/-- The transition table exactly as the specification states it
(§4.4 of the spec): `!processAlive ↦ failed`,
`processAlive ∧ tokenPresent ↦ ready`,
`processAlive ∧ ¬tokenPresent ∧ authRequired ↦ blocked`, and
`starting` otherwise.  Written from the spec's words, to be compared with
the source-derived `evaluateHealth`. -/
def healthStatusSpecTable (h : tunnelHealth) : String :=
  if h.processAlive = false then tunnelStatusFailed
  else if h.processAlive = true ∧ h.tokenPresent = true then tunnelStatusReady
  else if h.processAlive = true ∧ h.tokenPresent = false ∧ h.authRequired = true then
    tunnelStatusBlocked
  else tunnelStatusStarting

/-- C3: the Monitor's health-to-status map agrees with the spec's
transition table on every Health value (so in particular process liveness
alone never yields "ready"). -/
theorem evaluateHealth_matches_spec_table (h : tunnelHealth) :
    evaluateHealth h = healthStatusSpecTable h := by
  obtain ⟨pa, tp, ar, dc⟩ := h
  cases pa <;> cases tp <;> cases ar <;> simp [evaluateHealth, healthStatusSpecTable]

/-! ## The auth-prompt line pattern

`authPromptLinePattern` is the anchored regex
`^To grant access to the server, please log into
https://github\.com/login/device and use code [A-Za-z0-9-]+$`:
the fixed sentence stem followed by one or more code characters. -/

def authPromptStem : String :=
  "To grant access to the server, please log into https://github.com/login/device and use code "

/-- `[A-Za-z0-9-]`. -/
def isAuthCodeChar (c : Char) : Bool := c.isAlphanum || c = '-'

/-- Match an exact literal, returning the remainder. -/
def dropLit : List Char → List Char → Option (List Char)
  | [], cs => some cs
  | _ :: _, [] => none
  | p :: ps, c :: cs => if c = p then dropLit ps cs else none

/-- `authPromptLinePattern.MatchString` on a whole line. -/
def authPromptLineMatches (line : String) : Bool :=
  match dropLit authPromptStem.data line.data with
  | none => false
  | some rest => !rest.isEmpty && rest.all isAuthCodeChar

/-! ## The device-code regex

`deviceCodePattern` is
`(?i)\b(?:enter\s+(?:the\s+)?)?(?:device\s*code|code)\b[^A-Z0-9-]*([A-Z0-9]{4}(?:-[A-Z0-9]{4})+)`
with Go RE2 leftmost-first `FindStringSubmatch` semantics.  The matcher
below scans start positions left to right; at each position the pattern's
choice points are tried in the backtracking preference order.  Every
quantified subexpression of this particular pattern is forced (the
character following each greedy run is never consumable by the run), so
maximal-munch parsing is faithful.  The captured group is kept in its
structured form (head chunk plus `-`-separated chunks). -/

/-- `\w` of RE2: `[0-9A-Za-z_]`. -/
def isWordChar (c : Char) : Bool := c.isAlphanum || c = '_'

/-- `\s` of RE2: `[\t\n\f\r ]`. -/
def isRegexSpace (c : Char) : Bool :=
  c = '\t' || c = '\n' || c = '\x0c' || c = '\r' || c = ' '

/-- Case-insensitive literal match (the whole pattern carries `(?i)`). -/
def dropLitCI : List Char → List Char → Option (List Char)
  | [], cs => some cs
  | _ :: _, [] => none
  | p :: ps, c :: cs => if c.toLower = p.toLower then dropLitCI ps cs else none

/-- `\s+` (maximal; the following literal never starts with whitespace). -/
def dropSpaces1 (cs : List Char) : Option (List Char) :=
  match cs with
  | c :: rest => if isRegexSpace c then some (rest.dropWhile isRegexSpace) else none
  | [] => none

/-- `(?:device\s*code|code)`, alternatives in preference order (their
first letters differ, so the alternation is deterministic). -/
def matchKeywordCore (cs : List Char) : Option (List Char) :=
  (do
    let r ← dropLitCI "device".data cs
    dropLitCI "code".data (r.dropWhile isRegexSpace)) <|>
  dropLitCI "code".data cs

/-- `enter\s+(?:the\s+)?` then the core keyword; the optional `the\s+` is
tried first (greedy `?`). -/
def matchKeywordEnter (cs : List Char) : Option (List Char) := do
  let r ← dropLitCI "enter".data cs
  let r ← dropSpaces1 r
  (do
    let r2 ← dropLitCI "the".data r
    let r3 ← dropSpaces1 r2
    matchKeywordCore r3) <|>
  matchKeywordCore r

/-- `(?:enter\s+(?:the\s+)?)?(?:device\s*code|code)` (the prefixed and the
bare alternative begin with distinct letters, so preference order cannot
change the overall result). -/
def matchKeyword (cs : List Char) : Option (List Char) :=
  matchKeywordEnter cs <|> matchKeywordCore cs

/-- `[A-Z0-9]{4}` under `(?i)`: exactly four alphanumerics. -/
def take4Alnum (cs : List Char) : Option (List Char × List Char) :=
  match cs with
  | a :: b :: c :: d :: rest =>
    if a.isAlphanum && b.isAlphanum && c.isAlphanum && d.isAlphanum then
      some ([a, b, c, d], rest)
    else none
  | _ => none

/-- One `(?:-[A-Z0-9]{4})` unit; the returned chunk omits the dash. -/
def takeUnit (cs : List Char) : Option (List Char × List Char) :=
  match cs with
  | '-' :: rest => take4Alnum rest
  | _ => none

/-- Greedy `(?:-[A-Z0-9]{4})*` (fuel-bounded; each unit consumes five
characters, so `cs.length` fuel never runs short). -/
def takeUnitsList : Nat → List Char → List (List Char)
  | 0, _ => []
  | n + 1, cs =>
    match takeUnit cs with
    | none => []
    | some (u, r) => u :: takeUnitsList n r

/-- The capture group `([A-Z0-9]{4}(?:-[A-Z0-9]{4})+)`: head chunk plus at
least one dash-joined chunk, greedy. -/
def parseCodeGroup (cs : List Char) : Option (List Char × List (List Char)) := do
  let (a, r) ← take4Alnum cs
  match takeUnit r with
  | none => none
  | some (u, r2) => some (a, u :: takeUnitsList r2.length r2)

/-- Reassemble the captured substring from its chunks. -/
def groupChars (a : List Char) (us : List (List Char)) : List Char :=
  a ++ (us.map (fun u => '-' :: u)).flatten

/-- Attempt the whole pattern at one start position (the leading `\b` is
checked by the scanner). -/
def matchDeviceAt (cs : List Char) : Option (List Char × List (List Char)) := do
  let r ← matchKeyword cs
  -- trailing `\b` after the keyword
  match r with
  | c :: _ => if isWordChar c then none else pure ()
  | [] => pure ()
  -- `[^A-Z0-9-]*` under `(?i)`: skip everything that is neither
  -- alphanumeric nor a dash (maximal, forced)
  parseCodeGroup (r.dropWhile (fun c => !(c.isAlphanum || c = '-')))

/-- Scan start positions left to right, tracking the previous character
for the leading `\b` (a successful match always starts on a word
character, so the boundary reduces to "previous is absent or non-word"). -/
def findDeviceCode : Option Char → List Char → Option (List Char × List (List Char))
  | _, [] => none
  | prev, c :: cs =>
    let boundary := isWordChar c && (match prev with
      | none => true
      | some p => !isWordChar p)
    if boundary then
      match matchDeviceAt (c :: cs) with
      | some g => some g
      | none => findDeviceCode (some c) cs
    else findDeviceCode (some c) cs

/-- `extractDeviceCode`: first submatch, `strings.TrimSpace`d and
`strings.ToUpper`ed (the guard against an empty result mirrors the
source). -/
def extractDeviceCode (logOutput : String) : String :=
  match findDeviceCode none logOutput.data with
  | none => ""
  | some (a, us) =>
    let code := String.mk ((trimChars (groupChars a us)).map Char.toUpper)
    if code = "" then "" else code

/-- The spec's published-code pattern `[A-Z0-9]{4}(-[A-Z0-9]{4})+`,
anchored to the whole string: splitting on `-` yields at least two chunks,
each of exactly four uppercase alphanumerics. -/
def isUpperAlnum (c : Char) : Bool :=
  (65 ≤ c.toNat && c.toNat ≤ 90) || c.isDigit

def devicePatternMatches (s : String) : Bool :=
  let chunks := splitChar '-' s.data
  2 ≤ chunks.length && chunks.all (fun c => c.length = 4 && c.all isUpperAlnum)

/-! ## Log tail inspection -/

/-- `latestNonEmptyLine`. -/
def latestNonEmptyLine (value : String) : String :=
  (((splitChar '\n' value.data).reverse.map (fun l => trimChars l)).find?
      (fun l => !l.isEmpty)).elim "" String.mk

/-! ## The Health Prober (`(s *podmanService) checkTunnelHealth`)

The two `runPodmanCommand` results (the `kill -0` liveness probe and the
session-log `cat`) are passed in as `Option String` (`none` = the command
returned an error); `hasVSCodeToken`'s filesystem answer is passed as a
`Bool`. -/

/-- The `(authRequired, deviceCode)` pair computed from the session log
(the `logErr == nil` branch of `checkTunnelHealth`). -/
def tunnelLogAuthPair (logOutput : String) : Bool × String :=
  let line := latestNonEmptyLine logOutput
  if authPromptLineMatches line then (true, extractDeviceCode line)
  else
    let code := extractDeviceCode line
    if code ≠ "" then (true, code) else (false, "")

def checkTunnelHealth (pidResult : Option String) (tokenPresent : Bool)
    (logResult : Option String) : tunnelHealth :=
  let processAlive :=
    match pidResult with
    | some pidOutput => goTrimSpace pidOutput = "alive"
    | none => false
  let authPair :=
    match logResult with
    | none => (false, "")
    | some logOutput => tunnelLogAuthPair logOutput
  { processAlive := processAlive, tokenPresent := tokenPresent,
    authRequired := authPair.1, deviceCode := authPair.2 }

/-! ## The Monitor loop (`(m *tunnelMonitor) run`)

One iteration of the `for { select { case <-ticker.C: ... } }` body.
`now` is the current tick index; `writes` collects the states passed to
`setTunnelState`; `stopped` is whether the iteration `return`s.  The stop
channel is modelled by running the loop on the finite list of Health
values observed before any stop. -/

structure tunnelMonitorState where
  state : String
  lastProgress : Nat
deriving DecidableEq, Repr

def tunnelTimeoutState : podmanTunnelState :=
  { Status := tunnelStatusFailed, Code := "",
    Message := "Tunnel bootstrap timed out.", Debug := none }

structure tickResult where
  monitor : tunnelMonitorState
  writes : List podmanTunnelState
  stopped : Bool
deriving DecidableEq, Repr

def monitorTick (now : Nat) (m : tunnelMonitorState) (health : tunnelHealth) :
    tickResult :=
  let newState := evaluateHealth health
  let step :=
    if newState ≠ m.state then
      (tunnelMonitorState.mk newState now,
       [buildTunnelStateFromHealth newState health])
    else (m, [])
  if newState = tunnelStatusFailed then
    { monitor := step.1, writes := step.2, stopped := true }
  else if tunnelTimeoutTicks < now - step.1.lastProgress then
    { monitor := step.1, writes := step.2 ++ [tunnelTimeoutState], stopped := true }
  else
    { monitor := step.1, writes := step.2, stopped := false }

/-- The loop over a finite stream of Health observations, starting at tick
`now`.  Returns all states passed to `setTunnelState`, the final monitor
record, and whether the loop returned by itself. -/
def monitorRun : List tunnelHealth → tunnelMonitorState → Nat →
    List podmanTunnelState × tunnelMonitorState × Bool
  | [], m, _ => ([], m, false)
  | h :: hs, m, now =>
    let r := monitorTick now m h
    if r.stopped then (r.writes, r.monitor, true)
    else
      let rest := monitorRun hs r.monitor (now + 1)
      (r.writes ++ rest.1, rest.2.1, rest.2.2)

/-- `startTunnelMonitor`'s initial monitor record:
`state = starting, lastProgress = now` (tick 0). -/
def initialMonitorState : tunnelMonitorState :=
  { state := tunnelStatusStarting, lastProgress := 0 }

/-! ## Reconciler seeding (`reconcileTunnelSessions`, per container) -/

/-- The state `reconcileTunnelSessions` writes for one labelled container,
as a function of the probed Health. -/
def reconcileStateForHealth (health : tunnelHealth) : podmanTunnelState :=
  if health.processAlive then
    let state := buildTunnelStateFromHealth "starting" health
    if health.authRequired then buildTunnelStateFromHealth tunnelStatusBlocked health
    else state
  else
    { Status := tunnelStatusFailed, Code := "",
      Message := "Tunnel process not running.", Debug := none }

/-! ## Bootstrap (`(s *podmanService) bootstrapTunnel`)

The three `runPodmanCommand` invocations (reading `/etc/passwd`,
running the install script, launching the start script) are passed in as
`execOutcome`s; `.fail` carries the command output and `err.Error()`. -/

inductive execOutcome where
  | ok (output : String)
  | fail (output : String) (errMessage : String)
deriving DecidableEq, Repr

structure passwdEntry where
  name : String
  uid : Int
  home : String
deriving DecidableEq, Repr

/-- Go `strconv.Atoi`: optional sign, at least one digit, no other
characters, result within the 64-bit `int` range. -/
def goAtoi (s : String) : Option Int :=
  let core (sign : Int) (digits : List Char) : Option Int :=
    if digits.isEmpty || !digits.all Char.isDigit then none
    else
      let v : Int :=
        sign * (digits.foldl (fun a c => a * 10 + (c.toNat - '0'.toNat)) 0 : Nat)
      if v < -(2 ^ 63) || 2 ^ 63 - 1 < v then none else some v
  match s.data with
  | '+' :: rest => core 1 rest
  | '-' :: rest => core (-1) rest
  | rest => core 1 rest

/-- One iteration of the `selectFirstNonRootUser` loop body: `none` where
the Go code `continue`s. -/
def parsePasswdLine (line : String) : Option passwdEntry :=
  let trimmed := goTrimSpace line
  if trimmed = "" || strStartsWith trimmed.data "#".data then none
  else
    let parts := splitChar ':' trimmed.data
    if parts.length < 7 then none
    else
      let name := goTrimSpace (String.mk (parts.getD 0 []))
      if name = "" || name = "root" then none
      else
        match goAtoi (goTrimSpace (String.mk (parts.getD 2 []))) with
        | none => none
        | some uid =>
          let home := goTrimSpace (String.mk (parts.getD 5 []))
          let home := if home = "" then "/tmp" else home
          some { name := name, uid := uid, home := home }

/-- The loop of `selectFirstNonRootUser` with its `fallback` accumulator
(source order: record the fallback, then test the preferred predicate). -/
def selectFirstNonRootUserLoop :
    List String → Option (String × String) → Option (String × String)
  | [], fallback => fallback
  | line :: rest, fallback =>
    match parsePasswdLine line with
    | none => selectFirstNonRootUserLoop rest fallback
    | some e =>
      let fallback := match fallback with
        | none => some (e.name, e.home)
        | some f => some f
      if 1000 ≤ e.uid && strStartsWith e.home.data "/home/".data then
        some (e.name, e.home)
      else selectFirstNonRootUserLoop rest fallback

/-- `selectFirstNonRootUser` (`some (name, home)` for `ok = true`). -/
def selectFirstNonRootUser (passwdContents : String) : Option (String × String) :=
  selectFirstNonRootUserLoop
    ((splitChar '\n' passwdContents.data).map String.mk) none

/-- `resolveFirstNonRootUser`, with the `cat /etc/passwd` exec outcome as
input. -/
def resolveFirstNonRootUser (passwdResult : execOutcome) :
    Option (String × String) :=
  match passwdResult with
  | .fail _ _ => none
  | .ok output => selectFirstNonRootUser output

/-- `buildTunnelFailureMessage` (`err` is always non-nil on the failure
paths that call it, so `errMessage` stands for `err.Error()`). -/
def buildTunnelFailureMessage (prefixText : String) (output : String)
    (errMessage : String) : String :=
  let message := goTrimSpace output
  let message := if message = "" then goTrimSpace errMessage else message
  if message = "" then prefixText ++ "."
  else
    let message :=
      if 240 < message.data.length then String.mk (message.data.take 240) ++ "..."
      else message
    prefixText ++ ": " ++ message

/-- `bootstrapTunnel`, with the exec outcomes as inputs.  Debug tokens are
arbitrary distinct-from-`none` markers (the Go code allocates a fresh
`workspaceTunnelDebug` once the exec user is known). -/
def bootstrapTunnel (containerID : String) (passwdResult installResult
    startResult : execOutcome) : podmanTunnelState :=
  match resolveFirstNonRootUser passwdResult with
  | none =>
    { Status := tunnelStatusFailed, Code := "",
      Message := "No non-root user found in container.", Debug := none }
  | some _ =>
    if containerID = "" then
      { Status := tunnelStatusFailed, Code := "",
        Message := "Missing container ID.", Debug := some 0 }
    else
      match installResult with
      | .fail output errMessage =>
        { Status := tunnelStatusFailed, Code := "",
          Message := buildTunnelFailureMessage "Failed to install VS Code CLI"
            output errMessage,
          Debug := some 0 }
      | .ok _ =>
        match startResult with
        | .fail output errMessage =>
          { Status := tunnelStatusFailed, Code := "",
            Message := buildTunnelFailureMessage "Failed to start VS Code tunnel"
              output errMessage,
            Debug := some 0 }
        | .ok _ =>
          { Status := tunnelStatusStarting, Code := "", Message := "",
            Debug := some 0 }

/-- The entries of `/etc/passwd` as the selection loop sees them: one per
line that survives all of the loop's `continue` filters. -/
def passwdEntries (passwd : String) : List passwdEntry :=
  ((splitChar '\n' passwd.data).map String.mk).filterMap parsePasswdLine

/-- The spec's preference: `UID ≥ 1000` and home under `/home/`. -/
def isPreferredEntry (e : passwdEntry) : Bool :=
  1000 ≤ e.uid && strStartsWith e.home.data "/home/".data

/-- The user selection as the specification words it: the first entry with
`UID ≥ 1000` and home under `/home/`, else the first non-root entry. -/
def selectUserSpec (passwd : String) : Option (String × String) :=
  match (passwdEntries passwd).find? isPreferredEntry with
  | some e => some (e.name, e.home)
  | none => (passwdEntries passwd).head?.map (fun e => (e.name, e.home))

/-! ## The Store (`(s *podmanService) setTunnelState`)

`tunnelStateByContainerID` is modelled as an association list with unique
keys; `storeGet`/`storeInsert` are the Go map read and write. -/

def storeGet (store : List (String × podmanTunnelState)) (key : String) :
    Option podmanTunnelState :=
  (store.find? (fun p => p.1 = key)).map Prod.snd

def storeInsert (store : List (String × podmanTunnelState)) (key : String)
    (state : podmanTunnelState) : List (String × podmanTunnelState) :=
  match store with
  | [] => [(key, state)]
  | p :: rest =>
    if p.1 = key then (key, state) :: rest
    else p :: storeInsert rest key state

/-- `setTunnelState`: returns the updated store and the reported
changed-flag. -/
def setTunnelState (store : List (String × podmanTunnelState))
    (containerID : String) (state : podmanTunnelState) :
    List (String × podmanTunnelState) × Bool :=
  let cid := goTrimSpace containerID
  if cid = "" || goTrimSpace state.Status = "" then (store, false)
  else
    match storeGet store cid with
    | some current =>
      if current = state then (store, false)
      else (storeInsert store cid state, true)
    | none => (storeInsert store cid state, true)

/-! ## EnrichList URL construction (`buildTunnelConnectURLForContainer`,
`buildWorkspaceOpenPath`, `buildTunnelName`) -/

def labelWorkspaceHome : String := "pocketpod.workspace_home"
def labelWorkspaceDir : String := "pocketpod.workspace_dir"

/-- Go map read `labels[key]` with the zero-value default; container
labels have unique keys. -/
def labelsGet (labels : List (String × String)) (key : String) : String :=
  ((labels.find? (fun p => p.1 = key)).map Prod.snd).getD ""

/-- `invalidTunnelName` regex `[^a-zA-Z0-9_.-]` as a character test. -/
def isInvalidTunnelNameChar (c : Char) : Bool :=
  !(c.isAlphanum || c = '_' || c = '.' || c = '-')

/-- Go `strings.Trim(name, "-.")`. -/
def trimDashDot (cs : List Char) : List Char :=
  ((cs.dropWhile (fun c => c = '-' || c = '.')).reverse.dropWhile
      (fun c => c = '-' || c = '.')).reverse

/-- `buildTunnelName` (after the per-rune replacement every character is
ASCII, so Go's byte-oriented `len`/slicing agrees with the char count). -/
def buildTunnelName (workspaceName containerID : String) : String :=
  let name := goTrimSpace workspaceName
  let name := if name = "" then goTrimSpace containerID else name
  let name := if name = "" then "workspace" else name
  let name := name.data.map (fun c => if isInvalidTunnelNameChar c then '-' else c)
  let name := trimDashDot name
  if name.isEmpty then "workspace"
  else if 128 < name.length then String.mk (name.take 128)
  else String.mk name

/-- The unescaped set of Go `net/url.PathEscape` (mode
`encodePathSegment`): ASCII alphanumerics, `-_.~`, and `$&+:=@`. -/
def isPathSegmentSafe (c : Char) : Bool :=
  c.isAlphanum || c = '-' || c = '_' || c = '.' || c = '~' ||
  c = '$' || c = '&' || c = '+' || c = ':' || c = '=' || c = '@'

def hexDigitUpper (n : Nat) : Char :=
  if n < 10 then Char.ofNat ('0'.toNat + n) else Char.ofNat ('A'.toNat + n - 10)

def percentByte (b : Nat) : List Char :=
  ['%', hexDigitUpper (b / 16 % 16), hexDigitUpper (b % 16)]

/-- UTF-8 bytes of a character (Go escapes byte-wise). -/
def utf8Bytes (c : Char) : List Nat :=
  let n := c.toNat
  if n < 0x80 then [n]
  else if n < 0x800 then [0xC0 + n / 64, 0x80 + n % 64]
  else if n < 0x10000 then
    [0xE0 + n / 4096, 0x80 + n / 64 % 64, 0x80 + n % 64]
  else
    [0xF0 + n / 262144, 0x80 + n / 4096 % 64, 0x80 + n / 64 % 64, 0x80 + n % 64]

/-- `neturl.PathEscape`. -/
def pathEscape (s : String) : String :=
  String.mk (s.data.flatMap (fun c =>
    if c.toNat < 0x80 && isPathSegmentSafe c then [c]
    else (utf8Bytes c).flatMap percentByte))

/-- `buildWorkspaceOpenPath`. -/
def buildWorkspaceOpenPath (labels : List (String × String)) : String :=
  if labels.isEmpty then ""
  else
    let workspaceHome := goTrimSpace (labelsGet labels labelWorkspaceHome)
    let workspaceDir := goTrimSpace (labelsGet labels labelWorkspaceDir)
    if workspaceHome = "" || workspaceDir = "" then ""
    else
      let fullPath := String.mk (trimRightChar workspaceHome.data '/') ++
        "/workspaces/" ++ workspaceDir
      let fullPath := goTrimSpace fullPath
      if fullPath = "" then ""
      else
        let parts := splitChar '/' fullPath.data
        let escapedParts := (parts.filter (fun p => !p.isEmpty)).map
          (fun p => pathEscape (String.mk p))
        if escapedParts.isEmpty then ""
        else "/" ++ String.intercalate "/" escapedParts

/-- `buildTunnelConnectURLForContainer`. -/
def buildTunnelConnectURLForContainer (containerName : String)
    (labels : List (String × String)) (tunnelStatus : String) : String :=
  let status := goToLower (goTrimSpace tunnelStatus)
  if status ≠ tunnelStatusReady then ""
  else
    let name := buildTunnelName containerName ""
    if name = "" then ""
    else
      let baseURL := "https://vscode.dev/tunnel/" ++ name
      let workspacePath := buildWorkspaceOpenPath labels
      if workspacePath = "" then baseURL
      else baseURL ++ workspacePath

/-! ## Claim C9: `Store.Set` change detection -/

/-- C9: for every container id (a non-blank string, as the runtime
returns) and every TunnelState of the data model (status one of the four
canonical values), `setTunnelState` reports `true` exactly when the
written state differs by (Go `==`) value from the state previously held
under that id. -/
theorem setTunnelState_true_iff_changed
    (store : List (String × podmanTunnelState)) (cid : String)
    (state : podmanTunnelState)
    (hid : goTrimSpace cid = cid) (hne : cid ≠ "")
    (hstatus : state.Status = tunnelStatusStarting ∨
      state.Status = tunnelStatusBlocked ∨ state.Status = tunnelStatusReady ∨
      state.Status = tunnelStatusFailed) :
    (setTunnelState store cid state).2 = true ↔
      storeGet store cid ≠ some state := by
  have hs : goTrimSpace state.Status ≠ "" := by
    rcases hstatus with h | h | h | h <;> rw [h] <;> decide
  cases hG : storeGet store cid with
  | none => simp [setTunnelState, hid, hne, hs, hG]
  | some current =>
    by_cases hc : current = state
    · subst hc; simp [setTunnelState, hid, hne, hs, hG]
    · simp [setTunnelState, hid, hne, hs, hG, hc]

/-- Witness for C9 at a concrete empty store. -/
theorem setTunnelState_true_iff_changed_witness :
    (setTunnelState [] "abc"
        { Status := "starting", Code := "", Message := "", Debug := none }).2 = true ↔
      storeGet [] "abc" ≠
        some { Status := "starting", Code := "", Message := "", Debug := none } :=
  setTunnelState_true_iff_changed [] "abc" _ (by decide) (by decide)
    (Or.inl rfl)

/-! ## Claim C4: "blocked" is not terminal for the Monitor -/

/-- C4: a tick that changes the state to "blocked" does not stop the
Monitor loop; from a "blocked" monitor, a tick whose Health has the
process alive and the token present writes the "ready" state (and keeps
running), and a tick whose Health has the process dead writes the
"failed" state and exits. -/
theorem blocked_not_terminal :
    (∀ (now : Nat) (m : tunnelMonitorState) (h : tunnelHealth),
        evaluateHealth h = tunnelStatusBlocked → m.state ≠ tunnelStatusBlocked →
        (monitorTick now m h).stopped = false) ∧
    (∀ (now : Nat) (m : tunnelMonitorState) (h : tunnelHealth),
        m.state = tunnelStatusBlocked → h.processAlive = true →
        h.tokenPresent = true →
        (monitorTick now m h).writes =
          [buildTunnelStateFromHealth tunnelStatusReady h] ∧
        (monitorTick now m h).monitor.state = tunnelStatusReady ∧
        (monitorTick now m h).stopped = false) ∧
    (∀ (now : Nat) (m : tunnelMonitorState) (h : tunnelHealth),
        m.state = tunnelStatusBlocked → h.processAlive = false →
        (monitorTick now m h).writes =
          [buildTunnelStateFromHealth tunnelStatusFailed h] ∧
        (monitorTick now m h).stopped = true) := by
  refine ⟨?_, ?_, ?_⟩
  · intro now m h he hm
    have hx : ¬(("blocked" : String) = m.state) := fun hEq => hm hEq.symm
    simp [monitorTick, he, hx, tunnelStatusBlocked, tunnelStatusFailed,
      Nat.sub_self, tunnelTimeoutTicks]
  · intro now m h hm ha ht
    have he : evaluateHealth h = tunnelStatusReady := by
      simp [evaluateHealth, ha, ht]
    have hx : ¬(("ready" : String) = m.state) := by
      rw [hm]; decide
    refine ⟨?_, ?_, ?_⟩ <;>
      simp [monitorTick, he, hx, tunnelStatusReady, tunnelStatusFailed,
        Nat.sub_self, tunnelTimeoutTicks]
  · intro now m h hm ha
    have he : evaluateHealth h = tunnelStatusFailed := by
      simp [evaluateHealth, ha]
    have hx : ¬(("failed" : String) = m.state) := by
      rw [hm]; decide
    constructor <;> simp [monitorTick, he, hx, tunnelStatusFailed]

/-- Witness for C4 at concrete ticks. -/
theorem blocked_not_terminal_witness :
    (monitorTick 1 { state := "starting", lastProgress := 0 }
        { processAlive := true, tokenPresent := false, authRequired := true,
          deviceCode := "ABCD-EFGH" }).stopped = false ∧
    (monitorTick 2 { state := "blocked", lastProgress := 1 }
        { processAlive := true, tokenPresent := true, authRequired := false,
          deviceCode := "" }).writes =
      [buildTunnelStateFromHealth tunnelStatusReady
        { processAlive := true, tokenPresent := true, authRequired := false,
          deviceCode := "" }] ∧
    (monitorTick 2 { state := "blocked", lastProgress := 1 }
        { processAlive := false, tokenPresent := false, authRequired := false,
          deviceCode := "" }).stopped = true :=
  ⟨blocked_not_terminal.1 1 _ _ (by decide) (by decide),
   (blocked_not_terminal.2.1 2 _ _ rfl rfl rfl).1,
   (blocked_not_terminal.2.2 2 _ _ rfl rfl).2⟩

/-! ## Claims C5 and C10: the progress-based timeout -/

/-- Helper: a run whose derived status never changes reaches the timeout
and produces exactly the timed-out write. -/
theorem monitorRun_constant_timeout (h : tunnelHealth) (s0 : String)
    (hs : evaluateHealth h = s0) (hnf : s0 ≠ tunnelStatusFailed) :
    ∀ (n now : Nat), 1 ≤ now → now ≤ tunnelTimeoutTicks + 1 →
      tunnelTimeoutTicks + 1 - now < n →
      monitorRun (List.replicate n h) { state := s0, lastProgress := 0 } now =
        ([tunnelTimeoutState], { state := s0, lastProgress := 0 }, true) := by
  intro n
  induction n with
  | zero => intro now h1 h2 h3; omega
  | succ k ih =>
    intro now h1 h2 h3
    rw [List.replicate_succ]
    have htick : monitorTick now { state := s0, lastProgress := 0 } h =
        if tunnelTimeoutTicks < now then
          { monitor := { state := s0, lastProgress := 0 },
            writes := [tunnelTimeoutState], stopped := true }
        else
          { monitor := { state := s0, lastProgress := 0 }, writes := [],
            stopped := false } := by
      simp [monitorTick, hs, hnf]
    by_cases hlim : tunnelTimeoutTicks < now
    · simp [monitorRun, htick, hlim]
    · have hrec := ih (now + 1) (by omega) (by simp [tunnelTimeoutTicks] at hlim ⊢; omega)
        (by omega)
      simp [monitorRun, htick, hlim, hrec]

/-- C5: if the derived status never changes, then as soon as more than
`ProgressTimeout` (40 poll ticks of 3 s) has elapsed since the last
progress, the Monitor writes `failed("Tunnel bootstrap timed out.")`
exactly once and the loop exits — for a stream of any length of at least
41 unchanged ticks, regardless of its exact length (progress-based, not a
fixed attempt count). -/
theorem monitor_progress_timeout (h : tunnelHealth) (s0 : String) (n : Nat)
    (hs : evaluateHealth h = s0) (hnf : s0 ≠ tunnelStatusFailed)
    (hn : tunnelTimeoutTicks + 1 ≤ n) :
    monitorRun (List.replicate n h) { state := s0, lastProgress := 0 } 1 =
      ([tunnelTimeoutState], { state := s0, lastProgress := 0 }, true) :=
  monitorRun_constant_timeout h s0 hs hnf n 1 (by omega)
    (by simp [tunnelTimeoutTicks]) (by omega)

/-- Witness for C5: 41 ticks of an unchanged "starting" Health time out
with the single timed-out write. -/
theorem monitor_progress_timeout_witness :
    monitorRun
        (List.replicate (tunnelTimeoutTicks + 1)
          { processAlive := true, tokenPresent := false, authRequired := false,
            deviceCode := "" })
        { state := "starting", lastProgress := 0 } 1 =
      ([tunnelTimeoutState], { state := "starting", lastProgress := 0 }, true) :=
  monitor_progress_timeout _ _ _ (by decide) (by decide) (by omega)

/-- C10: reaching "ready" (or "blocked") neither stops the Monitor loop
nor exempts it from the progress timeout: a tick that changes the state to
"ready" keeps the loop running, and a Monitor whose status stays unchanged
at "ready" or "blocked" for more than `ProgressTimeout` overwrites the
stored state with `failed("Tunnel bootstrap timed out.")` and exits. -/
theorem ready_not_terminal_timeout_applies :
    (∀ (now : Nat) (m : tunnelMonitorState) (h : tunnelHealth),
        evaluateHealth h = tunnelStatusReady → m.state ≠ tunnelStatusReady →
        (monitorTick now m h).stopped = false) ∧
    (∀ (h : tunnelHealth) (s0 : String) (n : Nat),
        evaluateHealth h = s0 →
        s0 = tunnelStatusReady ∨ s0 = tunnelStatusBlocked →
        tunnelTimeoutTicks + 1 ≤ n →
        monitorRun (List.replicate n h) { state := s0, lastProgress := 0 } 1 =
          ([tunnelTimeoutState], { state := s0, lastProgress := 0 }, true)) := by
  constructor
  · intro now m h he hm
    have hx : ¬(("ready" : String) = m.state) := fun hEq => hm hEq.symm
    simp [monitorTick, he, hx, tunnelStatusReady, tunnelStatusFailed,
      Nat.sub_self, tunnelTimeoutTicks]
  · intro h s0 n hs hrb hn
    have hnf : s0 ≠ tunnelStatusFailed := by
      rcases hrb with h' | h' <;> rw [h'] <;> decide
    exact monitorRun_constant_timeout h s0 hs hnf n 1 (by omega)
      (by simp [tunnelTimeoutTicks]) (by omega)

/-- Witness for C10: a change to "ready" keeps polling, and 41 unchanged
"ready" ticks end in the timed-out overwrite. -/
theorem ready_not_terminal_timeout_applies_witness :
    (monitorTick 3 { state := "blocked", lastProgress := 2 }
        { processAlive := true, tokenPresent := true, authRequired := false,
          deviceCode := "" }).stopped = false ∧
    monitorRun
        (List.replicate (tunnelTimeoutTicks + 1)
          { processAlive := true, tokenPresent := true, authRequired := false,
            deviceCode := "" })
        { state := "ready", lastProgress := 0 } 1 =
      ([tunnelTimeoutState], { state := "ready", lastProgress := 0 }, true) :=
  ⟨ready_not_terminal_timeout_applies.1 3 _ _ (by decide) (by decide),
   ready_not_terminal_timeout_applies.2 _ _ _ (by decide) (Or.inl rfl)
     (by omega)⟩

/-! ## Claim C7: user selection and the no-user Bootstrap failure -/

/-- The selection loop, characterised over the parsed entries with its
fallback accumulator generalised. -/
theorem selectFirstNonRootUserLoop_eq (lines : List String)
    (fallback : Option (String × String)) :
    selectFirstNonRootUserLoop lines fallback =
      match (lines.filterMap parsePasswdLine).find? isPreferredEntry with
      | some e => some (e.name, e.home)
      | none =>
        match fallback with
        | some f => some f
        | none =>
          (lines.filterMap parsePasswdLine).head?.map (fun e => (e.name, e.home)) := by
  induction lines generalizing fallback with
  | nil => cases fallback <;> simp [selectFirstNonRootUserLoop]
  | cons line rest ih =>
    cases hp : parsePasswdLine line with
    | none => simp [selectFirstNonRootUserLoop, hp, ih]
    | some e =>
      by_cases hpref : isPreferredEntry e = true
      · have : (1000 ≤ e.uid && strStartsWith e.home.data "/home/".data) = true := hpref
        cases fallback <;>
          simp [selectFirstNonRootUserLoop, hp, this, List.find?, hpref]
      · have hb : isPreferredEntry e = false := by simpa using hpref
        have hb' : (1000 ≤ e.uid && strStartsWith e.home.data "/home/".data) = false := hb
        cases fallback <;>
          simp [selectFirstNonRootUserLoop, hp, hb', ih, List.find?, hpref]

/-- C7: `selectFirstNonRootUser` returns the first parsed entry with
`UID ≥ 1000` and home under `/home/`, else the first non-root entry; and
when no entry exists (in particular on an empty `/etc/passwd`),
`bootstrapTunnel` returns the failed state reporting that no non-root
user was found. -/
theorem selectFirstNonRootUser_bootstrap_spec :
    (∀ passwd, selectFirstNonRootUser passwd = selectUserSpec passwd) ∧
    (∀ (cid passwd : String) (installR startR : execOutcome),
        selectFirstNonRootUser passwd = none →
        bootstrapTunnel cid (.ok passwd) installR startR =
          { Status := tunnelStatusFailed, Code := "",
            Message := "No non-root user found in container.", Debug := none }) ∧
    (∀ (cid : String) (installR startR : execOutcome),
        bootstrapTunnel cid (.ok "") installR startR =
          { Status := tunnelStatusFailed, Code := "",
            Message := "No non-root user found in container.", Debug := none }) := by
  have hmain : ∀ passwd, selectFirstNonRootUser passwd = selectUserSpec passwd := by
    intro passwd
    rw [selectFirstNonRootUser, selectFirstNonRootUserLoop_eq]
    simp [selectUserSpec, passwdEntries]
  have hboot : ∀ (cid passwd : String) (installR startR : execOutcome),
      selectFirstNonRootUser passwd = none →
      bootstrapTunnel cid (.ok passwd) installR startR =
        { Status := tunnelStatusFailed, Code := "",
          Message := "No non-root user found in container.", Debug := none } := by
    intro cid passwd installR startR hnone
    simp [bootstrapTunnel, resolveFirstNonRootUser, hnone]
  refine ⟨hmain, hboot, ?_⟩
  intro cid installR startR
  exact hboot cid "" installR startR (by decide)

/-- Witness for C7 (the `ubuntu` case preferred over lower-UID entries,
the root-only failure feeding Bootstrap). -/
theorem selectFirstNonRootUser_bootstrap_spec_witness :
    selectFirstNonRootUser
        "root:x:0:0:root:/root:/bin/bash\ndaemon:x:1:1:daemon:/usr/sbin:/usr/sbin/nologin\nubuntu:x:1000:1000:ubuntu:/home/ubuntu:/bin/bash" =
      selectUserSpec
        "root:x:0:0:root:/root:/bin/bash\ndaemon:x:1:1:daemon:/usr/sbin:/usr/sbin/nologin\nubuntu:x:1000:1000:ubuntu:/home/ubuntu:/bin/bash" ∧
    bootstrapTunnel "c1" (.ok "root:x:0:0:root:/root:/bin/bash") (.ok "") (.ok "") =
      { Status := tunnelStatusFailed, Code := "",
        Message := "No non-root user found in container.", Debug := none } :=
  ⟨selectFirstNonRootUser_bootstrap_spec.1 _,
   selectFirstNonRootUser_bootstrap_spec.2.1 "c1" _ _ _ (by decide)⟩

/-! ## Claim C8: the EnrichList tunnel URL -/

theorem str_data_append (s t : String) : (s ++ t).data = s.data ++ t.data := by
  cases s; cases t; rfl

theorem str_append_empty (s : String) : s ++ "" = s := by
  cases s with
  | mk d => exact congrArg String.mk (List.append_nil d)

theorem str_mk_eq_empty_iff (l : List Char) : String.mk l = "" ↔ l = [] := by
  constructor
  · intro h
    have : (String.mk l).data = ("" : String).data := congrArg String.data h
    simpa using this
  · rintro rfl; rfl

theorem mem_dropWhile_of_mem {α : Type} {p : α → Bool} {c : α} {cs : List α}
    (h : c ∈ cs) (hp : p c = false) : c ∈ cs.dropWhile p := by
  induction cs with
  | nil => cases h
  | cons a t ih =>
    rw [List.dropWhile_cons]
    by_cases ha : p a = true
    · simp only [ha, if_true]
      rcases List.mem_cons.mp h with rfl | hmem
      · rw [hp] at ha; cases ha
      · exact ih hmem
    · simp only [ha, if_false]
      exact h

theorem mem_trimChars {c : Char} {cs : List Char} (h : c ∈ cs)
    (hp : goIsSpace c = false) : c ∈ trimChars cs := by
  unfold trimChars
  rw [List.mem_reverse]
  refine mem_dropWhile_of_mem ?_ hp
  rw [List.mem_reverse]
  exact mem_dropWhile_of_mem h hp

theorem splitChar_ne_nil (sep : Char) (cs : List Char) :
    splitChar sep cs ≠ [] := by
  induction cs with
  | nil => simp [splitChar]
  | cons a t ih =>
    simp only [splitChar]
    by_cases ha : a = sep
    · simp [ha]
    · simp only [ha, if_false]
      cases h : splitChar sep t with
      | nil => simp
      | cons p ps => simp

theorem mem_splitChar {sep c : Char} {cs : List Char} (h : c ∈ cs)
    (hne : ¬c = sep) : ∃ p ∈ splitChar sep cs, c ∈ p := by
  induction cs with
  | nil => cases h
  | cons a t ih =>
    rcases List.mem_cons.mp h with rfl | hmem
    · simp only [splitChar, hne, if_false]
      cases hs : splitChar sep t with
      | nil => exact absurd hs (splitChar_ne_nil sep t)
      | cons p ps =>
        exact ⟨c :: p, List.mem_cons_self _ _, List.mem_cons_self _ _⟩
    · obtain ⟨p, hp1, hp2⟩ := ih hmem
      by_cases ha : a = sep
      · simp only [splitChar, ha, if_true]
        exact ⟨p, List.mem_cons_of_mem _ hp1, hp2⟩
      · simp only [splitChar, ha, if_false]
        cases hs : splitChar sep t with
        | nil => exact absurd hs (splitChar_ne_nil sep t)
        | cons q qs =>
          rw [hs] at hp1
          rcases List.mem_cons.mp hp1 with rfl | hmem2
          · exact ⟨a :: p, List.mem_cons_self _ _, List.mem_cons_of_mem _ hp2⟩
          · exact ⟨p, List.mem_cons_of_mem _ hmem2, hp2⟩

theorem buildTunnelName_ne_empty (w c : String) : buildTunnelName w c ≠ "" := by
  have key : ∀ l : List Char,
      (if l.isEmpty then "workspace"
       else if 128 < l.length then String.mk (l.take 128)
       else String.mk l) ≠ "" := by
    intro l
    by_cases he : l.isEmpty
    · simp [he]
    · rw [if_neg he]
      by_cases hl : 128 < l.length
      · rw [if_pos hl, Ne, str_mk_eq_empty_iff]
        intro h
        have hlen := congrArg List.length h
        rw [List.length_take] at hlen
        simp only [List.length_nil] at hlen
        omega
      · rw [if_neg hl, Ne, str_mk_eq_empty_iff]
        intro h
        rw [h] at he
        exact he rfl
  exact key _

/-- The workspace path is non-empty exactly when both labels survive the
trim; its interior always contains the `workspaces` segment. -/
theorem buildWorkspaceOpenPath_ne_empty_iff (labels : List (String × String)) :
    buildWorkspaceOpenPath labels ≠ "" ↔
      goTrimSpace (labelsGet labels labelWorkspaceHome) ≠ "" ∧
      goTrimSpace (labelsGet labels labelWorkspaceDir) ≠ "" := by
  by_cases hlab : labels.isEmpty
  · have hnil : labels = [] := List.isEmpty_iff.mp hlab
    subst hnil
    simp [show buildWorkspaceOpenPath ([] : List (String × String)) = "" from rfl,
      show goTrimSpace (labelsGet [] labelWorkspaceHome) = "" from rfl]
  · simp only [buildWorkspaceOpenPath, hlab, Bool.false_eq_true, if_false]
    by_cases h1 : goTrimSpace (labelsGet labels labelWorkspaceHome) = ""
    · simp [h1]
    · by_cases h2 : goTrimSpace (labelsGet labels labelWorkspaceDir) = ""
      · simp [h1, h2]
      · rw [if_neg (show ¬((decide (goTrimSpace (labelsGet labels labelWorkspaceHome) = "") ||
            decide (goTrimSpace (labelsGet labels labelWorkspaceDir) = "")) = true) by
              simp [h1, h2])]
        refine ⟨fun _ => ⟨h1, h2⟩, fun _ => ?_⟩
        -- the character 'w' of "workspaces" survives every stage
        generalize hfp0 : String.mk
          (trimRightChar (goTrimSpace (labelsGet labels labelWorkspaceHome)).data '/') ++
          "/workspaces/" ++ goTrimSpace (labelsGet labels labelWorkspaceDir) = fullPath0
        have hw0 : 'w' ∈ fullPath0.data := by
          rw [← hfp0, str_data_append, str_data_append]
          refine List.mem_append_left _ (List.mem_append_right _ ?_)
          decide
        have hw1 : 'w' ∈ (goTrimSpace fullPath0).data :=
          mem_trimChars hw0 (by decide)
        have hfne : ¬goTrimSpace fullPath0 = "" := by
          intro h
          rw [h] at hw1
          cases hw1
        rw [if_neg hfne]
        obtain ⟨p, hp1, hp2⟩ :=
          @mem_splitChar '/' 'w' (goTrimSpace fullPath0).data hw1 (by decide)
        have hpne : p.isEmpty = false := by
          cases p with
          | nil => cases hp2
          | cons x xs => rfl
        have hmem : p ∈ (splitChar '/' (goTrimSpace fullPath0).data).filter
            (fun q => !q.isEmpty) := by
          rw [List.mem_filter]
          exact ⟨hp1, by rw [hpne]; rfl⟩
        have hfilter : ((splitChar '/' (goTrimSpace fullPath0).data).filter
            (fun q => !q.isEmpty)).map (fun q => pathEscape (String.mk q)) ≠ [] := by
          intro h
          rw [List.map_eq_nil_iff] at h
          rw [h] at hmem
          cases hmem
        have hfe : (((splitChar '/' (goTrimSpace fullPath0).data).filter
            (fun q => !q.isEmpty)).map
              (fun q => pathEscape (String.mk q))).isEmpty = false := by
          cases hlist : ((splitChar '/' (goTrimSpace fullPath0).data).filter
              (fun q => !q.isEmpty)).map (fun q => pathEscape (String.mk q)) with
          | nil => exact absurd hlist hfilter
          | cons x xs => rfl
        rw [hfe]
        simp only [Bool.false_eq_true, if_false]
        intro hno
        have h' := congrArg String.data hno
        rw [str_data_append, List.append_eq_nil] at h'
        exact (by decide : ("/" : String).data ≠ []) h'.1

/-- C8: the EnrichList tunnel URL is empty for every status of the data
model other than "ready"; for "ready" it is
`https://vscode.dev/tunnel/<sanitised name>` followed by the URL-escaped
workspace path, and that suffix is non-empty exactly when both
`workspace_home` and `workspace_dir` labels are present and non-blank. -/
theorem tunnel_url_ready_only (name : String) (labels : List (String × String)) :
    (∀ status, status = tunnelStatusStarting ∨ status = tunnelStatusBlocked ∨
        status = tunnelStatusFailed →
        buildTunnelConnectURLForContainer name labels status = "") ∧
    buildTunnelConnectURLForContainer name labels tunnelStatusReady =
      "https://vscode.dev/tunnel/" ++ buildTunnelName name "" ++
        buildWorkspaceOpenPath labels ∧
    (buildWorkspaceOpenPath labels ≠ "" ↔
      goTrimSpace (labelsGet labels labelWorkspaceHome) ≠ "" ∧
      goTrimSpace (labelsGet labels labelWorkspaceDir) ≠ "") := by
  refine ⟨?_, ?_, buildWorkspaceOpenPath_ne_empty_iff labels⟩
  · rintro status (rfl | rfl | rfl) <;>
      (simp only [buildTunnelConnectURLForContainer]; rw [if_pos (by decide)])
  · simp only [buildTunnelConnectURLForContainer]
    rw [if_neg (by decide :
      ¬(goToLower (goTrimSpace tunnelStatusReady) ≠ tunnelStatusReady))]
    rw [if_neg (buildTunnelName_ne_empty name "")]
    by_cases hpath : buildWorkspaceOpenPath labels = ""
    · rw [if_pos hpath, hpath, str_append_empty]
    · rw [if_neg hpath]

/-- Witness for C8 at a concrete container record. -/
theorem tunnel_url_ready_only_witness :
    buildTunnelConnectURLForContainer "my-workspace"
        [(labelWorkspaceHome, "/home/ubuntu"), (labelWorkspaceDir, "tiny-stats")]
        tunnelStatusStarting = "" ∧
    buildTunnelConnectURLForContainer "my-workspace"
        [(labelWorkspaceHome, "/home/ubuntu"), (labelWorkspaceDir, "tiny-stats")]
        tunnelStatusReady =
      "https://vscode.dev/tunnel/" ++ buildTunnelName "my-workspace" "" ++
        buildWorkspaceOpenPath
          [(labelWorkspaceHome, "/home/ubuntu"), (labelWorkspaceDir, "tiny-stats")] :=
  ⟨(tunnel_url_ready_only "my-workspace" _).1 tunnelStatusStarting (Or.inl rfl),
   (tunnel_url_ready_only "my-workspace" _).2.1⟩

/-! ## Claim C2: structure of published device codes

The capture group of `deviceCodePattern` always has the shape
`XXXX(-XXXX)+` over alphanumerics, so after upper-casing it matches the
spec pattern `[A-Z0-9]{4}(-[A-Z0-9]{4})+`. -/

theorem take4Alnum_spec : ∀ {cs a r}, take4Alnum cs = some (a, r) →
    a.length = 4 ∧ a.all Char.isAlphanum = true := by
  intro cs a r h
  unfold take4Alnum at h
  split at h
  case h_1 a1 b c d rest =>
    split_ifs at h with hc
    simp only [Option.some.injEq, Prod.mk.injEq] at h
    obtain ⟨rfl, rfl⟩ := h
    simp only [Bool.and_eq_true] at hc
    obtain ⟨⟨⟨h1, h2⟩, h3⟩, h4⟩ := hc
    exact ⟨rfl, by simp [h1, h2, h3, h4]⟩
  case h_2 => cases h

theorem takeUnit_spec : ∀ {cs u r}, takeUnit cs = some (u, r) →
    u.length = 4 ∧ u.all Char.isAlphanum = true := by
  intro cs u r h
  unfold takeUnit at h
  split at h
  · exact take4Alnum_spec h
  · cases h

theorem takeUnitsList_spec : ∀ (n : Nat) (cs u : List Char),
    u ∈ takeUnitsList n cs → u.length = 4 ∧ u.all Char.isAlphanum = true := by
  intro n
  induction n with
  | zero => intro cs u h; cases h
  | succ k ih =>
    intro cs u h
    unfold takeUnitsList at h
    split at h
    · cases h
    · next u' r heq =>
      rcases List.mem_cons.mp h with rfl | hmem
      · exact takeUnit_spec heq
      · exact ih r u hmem

theorem parseCodeGroup_spec : ∀ {cs a us}, parseCodeGroup cs = some (a, us) →
    (a.length = 4 ∧ a.all Char.isAlphanum = true) ∧ us ≠ [] ∧
      ∀ u ∈ us, u.length = 4 ∧ u.all Char.isAlphanum = true := by
  intro cs a us h
  unfold parseCodeGroup at h
  cases h4 : take4Alnum cs with
  | none => rw [h4] at h; cases h
  | some ar =>
    obtain ⟨a0, r⟩ := ar
    rw [h4] at h
    simp only [Option.bind_eq_bind, Option.some_bind] at h
    cases h5 : takeUnit r with
    | none => rw [h5] at h; cases h
    | some ur =>
      obtain ⟨u, r2⟩ := ur
      rw [h5] at h
      simp only [Option.some.injEq, Prod.mk.injEq] at h
      obtain ⟨rfl, rfl⟩ := h
      refine ⟨take4Alnum_spec h4, by simp, ?_⟩
      intro v hv
      rcases List.mem_cons.mp hv with rfl | hmem
      · exact takeUnit_spec h5
      · exact takeUnitsList_spec _ _ _ hmem

theorem matchDeviceAt_spec : ∀ {cs a us}, matchDeviceAt cs = some (a, us) →
    (a.length = 4 ∧ a.all Char.isAlphanum = true) ∧ us ≠ [] ∧
      ∀ u ∈ us, u.length = 4 ∧ u.all Char.isAlphanum = true := by
  intro cs a us h
  unfold matchDeviceAt at h
  cases hk : matchKeyword cs with
  | none => rw [hk] at h; cases h
  | some r =>
    rw [hk] at h
    simp only [Option.bind_eq_bind, Option.some_bind] at h
    split at h
    · next c rest =>
      split_ifs at h with hw
      · cases h
      · simp only [Option.pure_def, Option.some_bind] at h
        exact parseCodeGroup_spec h
    · simp only [Option.pure_def, Option.some_bind] at h
      exact parseCodeGroup_spec h

theorem findDeviceCode_spec : ∀ {cs prev a us},
    findDeviceCode prev cs = some (a, us) →
    (a.length = 4 ∧ a.all Char.isAlphanum = true) ∧ us ≠ [] ∧
      ∀ u ∈ us, u.length = 4 ∧ u.all Char.isAlphanum = true := by
  intro cs
  induction cs with
  | nil => intro prev a us h; cases h
  | cons c rest ih =>
    intro prev a us h
    simp only [findDeviceCode] at h
    split at h
    · cases hm : matchDeviceAt (c :: rest) with
      | none => rw [hm] at h; exact ih h
      | some g =>
        rw [hm] at h
        obtain rfl := Option.some.inj h
        exact matchDeviceAt_spec hm
    · exact ih h

theorem isAlphanum_toNat {c : Char} (h : c.isAlphanum = true) :
    (65 ≤ c.toNat ∧ c.toNat ≤ 90) ∨ (97 ≤ c.toNat ∧ c.toNat ≤ 122) ∨
      (48 ≤ c.toNat ∧ c.toNat ≤ 57) := by
  simp only [Char.isAlphanum, Char.isAlpha, Char.isUpper, Char.isLower,
    Char.isDigit, Bool.or_eq_true, Bool.and_eq_true, decide_eq_true_eq] at h
  rcases h with (⟨h1, h2⟩ | ⟨h1, h2⟩) | ⟨h1, h2⟩
  · exact Or.inl ⟨h1, h2⟩
  · exact Or.inr (Or.inl ⟨h1, h2⟩)
  · exact Or.inr (Or.inr ⟨h1, h2⟩)

theorem isUpperAlnum_toUpper {c : Char} (h : c.isAlphanum = true) :
    isUpperAlnum c.toUpper = true := by
  rcases isAlphanum_toNat h with ⟨h1, h2⟩ | ⟨h1, h2⟩ | ⟨h1, h2⟩
  · have hup : c.toUpper = c := by
      unfold Char.toUpper
      exact if_neg (by omega)
    rw [hup]
    simp only [isUpperAlnum, Bool.or_eq_true, Bool.and_eq_true,
      decide_eq_true_eq]
    exact Or.inl ⟨h1, h2⟩
  · have hup : c.toUpper.toNat = c.toNat - 32 := by
      unfold Char.toUpper
      rw [if_pos ⟨h1, h2⟩]
      have hv : (c.toNat - 32).isValidChar := Or.inl (by omega)
      rw [Char.ofNat, dif_pos hv]
      rfl
    simp only [isUpperAlnum, Bool.or_eq_true, Bool.and_eq_true,
      decide_eq_true_eq, hup]
    exact Or.inl ⟨by omega, by omega⟩
  · have hup : c.toUpper = c := by
      unfold Char.toUpper
      exact if_neg (by omega)
    rw [hup]
    simp only [isUpperAlnum, Char.isDigit, Bool.or_eq_true, Bool.and_eq_true,
      decide_eq_true_eq]
    exact Or.inr ⟨h1, h2⟩

theorem isUpperAlnum_ne_dash {c : Char} (h : isUpperAlnum c = true) :
    ¬c = '-' := by
  rintro rfl
  exact absurd h (by decide)

theorem alnum_not_space {c : Char} (h : c.isAlphanum = true) :
    goIsSpace c = false := by
  by_contra hs
  rw [Bool.not_eq_false] at hs
  simp only [goIsSpace, Bool.or_eq_true, decide_eq_true_eq] at hs
  rcases hs with ((((rfl | rfl) | rfl) | rfl) | rfl) | rfl <;>
    exact absurd h (by decide)

theorem dropWhile_eq_self_of_none {α : Type} {p : α → Bool} {l : List α}
    (h : ∀ c ∈ l, p c = false) : l.dropWhile p = l := by
  cases l with
  | nil => rfl
  | cons a t =>
    rw [List.dropWhile_cons, h a (List.mem_cons_self a t)]
    simp

theorem trimChars_eq_self {cs : List Char}
    (h : ∀ c ∈ cs, goIsSpace c = false) : trimChars cs = cs := by
  unfold trimChars
  rw [dropWhile_eq_self_of_none h,
    dropWhile_eq_self_of_none (fun c hc => h c (List.mem_reverse.mp hc)),
    List.reverse_reverse]

theorem groupChars_map_toUpper (a : List Char) (us : List (List Char)) :
    (groupChars a us).map Char.toUpper =
      groupChars (a.map Char.toUpper) (us.map (fun u => u.map Char.toUpper)) := by
  unfold groupChars
  rw [List.map_append]
  congr 1
  rw [List.map_flatten, List.map_map, List.map_map]
  congr 1

theorem splitChar_append_no_sep {sep : Char} {a : List Char}
    (ha : ∀ c ∈ a, ¬c = sep) (cs : List Char) :
    splitChar sep (a ++ cs) = (splitChar sep cs).modifyHead (fun p => a ++ p) := by
  induction a with
  | nil =>
    cases h : splitChar sep cs with
    | nil => simp [h]
    | cons p ps => simp [h]
  | cons x xs ih =>
    have hx : ¬x = sep := ha x (List.mem_cons_self x xs)
    simp only [List.cons_append, splitChar, hx, if_false, List.append_eq]
    rw [ih (fun c hc => ha c (List.mem_cons_of_mem _ hc))]
    cases hs : splitChar sep cs with
    | nil => exact absurd hs (splitChar_ne_nil sep cs)
    | cons p ps => simp

theorem splitChar_flatten_units {sep : Char} {us : List (List Char)}
    (hus : ∀ u ∈ us, ∀ c ∈ u, ¬c = sep) :
    splitChar sep ((us.map (fun u => sep :: u)).flatten) = [] :: us := by
  induction us with
  | nil => rfl
  | cons u rest ih =>
    simp only [List.map_cons, List.flatten_cons, List.cons_append]
    have hstep : splitChar sep
        (sep :: (u ++ ((rest.map (fun v => sep :: v)).flatten))) =
        [] :: splitChar sep (u ++ ((rest.map (fun v => sep :: v)).flatten)) := by
      simp [splitChar]
    rw [hstep,
      splitChar_append_no_sep (hus u (List.mem_cons_self u rest)) _,
      ih (fun v hv => hus v (List.mem_cons_of_mem _ hv))]
    simp

theorem splitChar_groupChars {a : List Char} {us : List (List Char)}
    (ha : ∀ c ∈ a, ¬c = '-') (hus : ∀ u ∈ us, ∀ c ∈ u, ¬c = '-') :
    splitChar '-' (groupChars a us) = a :: us := by
  unfold groupChars
  rw [splitChar_append_no_sep ha, splitChar_flatten_units hus]
  simp

/-- Every non-empty result of `extractDeviceCode` matches the spec's
published-code pattern `[A-Z0-9]{4}(-[A-Z0-9]{4})+`. -/
theorem extractDeviceCode_pattern (line : String)
    (h : extractDeviceCode line ≠ "") :
    devicePatternMatches (extractDeviceCode line) = true := by
  cases hf : findDeviceCode none line.data with
  | none =>
    exfalso
    apply h
    unfold extractDeviceCode
    rw [hf]
  | some g =>
    obtain ⟨a, us⟩ := g
    have hx : extractDeviceCode line =
        (if String.mk ((trimChars (groupChars a us)).map Char.toUpper) = ""
         then ""
         else String.mk ((trimChars (groupChars a us)).map Char.toUpper)) := by
      unfold extractDeviceCode
      rw [hf]
    rw [hx] at h ⊢
    obtain ⟨⟨ha4, haAl⟩, husne, husAll⟩ := findDeviceCode_spec hf
    have haAl' : ∀ c ∈ a, c.isAlphanum = true := by
      intro c hc; exact List.all_eq_true.mp haAl c hc
    have husAl' : ∀ u ∈ us, ∀ c ∈ u, c.isAlphanum = true := by
      intro u hu c hc; exact List.all_eq_true.mp (husAll u hu).2 c hc
    have hnospace : ∀ c ∈ groupChars a us, goIsSpace c = false := by
      intro c hc
      unfold groupChars at hc
      rcases List.mem_append.mp hc with hc | hc
      · exact alnum_not_space (haAl' c hc)
      · obtain ⟨l, hl, hcl⟩ := List.mem_flatten.mp hc
        obtain ⟨u, hu, rfl⟩ := List.mem_map.mp hl
        rcases List.mem_cons.mp hcl with rfl | hcu
        · rfl
        · exact alnum_not_space (husAl' u hu c hcu)
    rw [trimChars_eq_self hnospace] at h ⊢
    rw [groupChars_map_toUpper] at h ⊢
    have hcodeNe : String.mk (groupChars (a.map Char.toUpper)
        (us.map (fun u => u.map Char.toUpper))) ≠ "" := by
      rw [Ne, str_mk_eq_empty_iff]
      intro hnil
      unfold groupChars at hnil
      rw [List.append_eq_nil] at hnil
      have := congrArg List.length hnil.1
      simp only [List.length_map, List.length_nil] at this
      omega
    rw [if_neg hcodeNe]
    unfold devicePatternMatches
    have hdata : (String.mk (groupChars (a.map Char.toUpper)
        (us.map (fun u => u.map Char.toUpper)))).data =
        groupChars (a.map Char.toUpper)
          (us.map (fun u => u.map Char.toUpper)) := rfl
    rw [hdata]
    have haUp : ∀ c ∈ a.map Char.toUpper, isUpperAlnum c = true := by
      intro c hc
      obtain ⟨c0, hc0, rfl⟩ := List.mem_map.mp hc
      exact isUpperAlnum_toUpper (haAl' c0 hc0)
    have husUp : ∀ u ∈ us.map (fun u => u.map Char.toUpper),
        ∀ c ∈ u, isUpperAlnum c = true := by
      intro u hu c hc
      obtain ⟨u0, hu0, rfl⟩ := List.mem_map.mp hu
      obtain ⟨c0, hc0, rfl⟩ := List.mem_map.mp hc
      exact isUpperAlnum_toUpper (husAl' u0 hu0 c0 hc0)
    rw [splitChar_groupChars
      (fun c hc => isUpperAlnum_ne_dash (haUp c hc))
      (fun u hu c hc => isUpperAlnum_ne_dash (husUp u hu c hc))]
    simp only [Bool.and_eq_true, decide_eq_true_eq]
    constructor
    · -- at least two chunks
      cases us with
      | nil => exact absurd rfl husne
      | cons u rest => simp only [List.length_cons, List.length_map]; omega
    · -- every chunk has four upper-alphanumerics
      rw [List.all_cons]
      simp only [Bool.and_eq_true, decide_eq_true_eq]
      refine ⟨⟨?_, ?_⟩, ?_⟩
      · simp [List.length_map, ha4]
      · exact List.all_eq_true.mpr (fun c hc => haUp c hc)
      · refine List.all_eq_true.mpr ?_
        intro u hu
        simp only [Bool.and_eq_true, decide_eq_true_eq]
        refine ⟨?_, ?_⟩
        · obtain ⟨u0, hu0, rfl⟩ := List.mem_map.mp hu
          simp [List.length_map, (husAll u0 hu0).1]
        · exact List.all_eq_true.mpr (fun c hc => husUp u hu c hc)

/-- Any non-empty `deviceCode` the Health Prober reports comes from
`extractDeviceCode` and therefore matches the published pattern. -/
theorem checkTunnelHealth_deviceCode_pattern (pidOut : Option String)
    (token : Bool) (logOut : Option String)
    (h : (checkTunnelHealth pidOut token logOut).deviceCode ≠ "") :
    devicePatternMatches
      ((checkTunnelHealth pidOut token logOut).deviceCode) = true := by
  cases logOut with
  | none => exact absurd rfl h
  | some log =>
    have hred : (checkTunnelHealth pidOut token (some log)).deviceCode =
        (tunnelLogAuthPair log).2 := rfl
    rw [hred] at h ⊢
    unfold tunnelLogAuthPair at h ⊢
    by_cases hp : authPromptLineMatches (latestNonEmptyLine log) = true
    · rw [if_pos hp] at h ⊢
      exact extractDeviceCode_pattern _ h
    · rw [if_neg hp] at h ⊢
      by_cases hc : extractDeviceCode (latestNonEmptyLine log) = ""
      · rw [if_neg (fun hx => hx hc)] at h
        exact absurd rfl h
      · rw [if_pos hc] at h ⊢
        exact extractDeviceCode_pattern _ hc

/-- C2 (amended): every TunnelState the Monitor or Reconciler builds from
a probed Health — in particular every "blocked" write — either carries a
code matching `[A-Z0-9]{4}(-[A-Z0-9]{4})+` together with the message
"Authentication required", or carries an empty code and an empty message
(the latter when no device code could be extracted from the prompt
line). -/
theorem blocked_code_pattern_or_both_empty (pidOut : Option String)
    (token : Bool) (logOut : Option String) (s : String) :
    (devicePatternMatches
        (buildTunnelStateFromHealth s
          (checkTunnelHealth pidOut token logOut)).Code = true ∧
      (buildTunnelStateFromHealth s
          (checkTunnelHealth pidOut token logOut)).Message =
        tunnelAuthRequiredMessage) ∨
    ((buildTunnelStateFromHealth s
        (checkTunnelHealth pidOut token logOut)).Code = "" ∧
      (buildTunnelStateFromHealth s
        (checkTunnelHealth pidOut token logOut)).Message = "") := by
  unfold buildTunnelStateFromHealth
  by_cases hcond : ((checkTunnelHealth pidOut token logOut).authRequired &&
      decide ((checkTunnelHealth pidOut token logOut).deviceCode ≠ "")) = true
  · rw [if_pos hcond]
    left
    have hne : (checkTunnelHealth pidOut token logOut).deviceCode ≠ "" := by
      have hand := (Bool.and_eq_true _ _).mp hcond
      exact of_decide_eq_true hand.2
    exact ⟨checkTunnelHealth_deviceCode_pattern pidOut token logOut hne, rfl⟩
  · rw [if_neg hcond]
    right
    exact ⟨rfl, rfl⟩

/-- Counterexample to C2 as stated: an auth-prompt line whose code part
does not fit the `XXXX-XXXX` shape yields a "blocked" write whose code is
empty and whose message is empty as well (not "Authentication
required"). -/
theorem blocked_write_empty_counterexample :
    (buildTunnelStateFromHealth
        (evaluateHealth (checkTunnelHealth (some "alive") false
          (some "To grant access to the server, please log into https://github.com/login/device and use code abc")))
        (checkTunnelHealth (some "alive") false
          (some "To grant access to the server, please log into https://github.com/login/device and use code abc"))).Status =
      tunnelStatusBlocked ∧
    (buildTunnelStateFromHealth
        (evaluateHealth (checkTunnelHealth (some "alive") false
          (some "To grant access to the server, please log into https://github.com/login/device and use code abc")))
        (checkTunnelHealth (some "alive") false
          (some "To grant access to the server, please log into https://github.com/login/device and use code abc"))).Code = "" ∧
    (buildTunnelStateFromHealth
        (evaluateHealth (checkTunnelHealth (some "alive") false
          (some "To grant access to the server, please log into https://github.com/login/device and use code abc")))
        (checkTunnelHealth (some "alive") false
          (some "To grant access to the server, please log into https://github.com/login/device and use code abc"))).Message ≠
      tunnelAuthRequiredMessage ∧
    devicePatternMatches
      (buildTunnelStateFromHealth
        (evaluateHealth (checkTunnelHealth (some "alive") false
          (some "To grant access to the server, please log into https://github.com/login/device and use code abc")))
        (checkTunnelHealth (some "alive") false
          (some "To grant access to the server, please log into https://github.com/login/device and use code abc"))).Code =
      false := by
  decide

/-! ## Claim C1: the `ready ⇒ code = ""` invariant -/

/-- C1 (evaluation at the failing input): when the token file is already
present while the session log's latest non-empty line is still the auth
prompt, the Monitor's tick writes a state with status "ready" whose code
is "ABCD-EFGH" and whose message is "Authentication required" — the
`status=ready ⇒ code=""` invariant does not hold for this reachable
write. -/
theorem ready_write_carries_code_eval :
    evaluateHealth (checkTunnelHealth (some "alive\n") true
        (some "To grant access to the server, please log into https://github.com/login/device and use code ABCD-EFGH")) =
      tunnelStatusReady ∧
    (monitorTick 5 { state := tunnelStatusBlocked, lastProgress := 4 }
        (checkTunnelHealth (some "alive\n") true
          (some "To grant access to the server, please log into https://github.com/login/device and use code ABCD-EFGH"))).writes =
      [{ Status := tunnelStatusReady, Code := "ABCD-EFGH",
         Message := tunnelAuthRequiredMessage, Debug := none }] := by
  decide

/-! ## Claim C6: only the latest log line drives auth detection -/

/-- C6 (amended): the Prober's auth detection is a function of the log's
latest non-empty line alone, and whenever that latest line neither matches
the auth-prompt pattern nor yields an extractable device code, the Prober
reports `authRequired = false` and the derived status is not "blocked". -/
theorem auth_detection_latest_line_only (pidOut : Option String)
    (token : Bool) (log : String)
    (h1 : authPromptLineMatches (latestNonEmptyLine log) = false)
    (h2 : extractDeviceCode (latestNonEmptyLine log) = "") :
    (checkTunnelHealth pidOut token (some log)).authRequired = false ∧
    evaluateHealth (checkTunnelHealth pidOut token (some log)) ≠
      tunnelStatusBlocked ∧
    ∀ (pidOut2 : Option String) (token2 : Bool) (log2 : String),
      latestNonEmptyLine log2 = latestNonEmptyLine log →
      (checkTunnelHealth pidOut2 token2 (some log2)).authRequired = false ∧
      (checkTunnelHealth pidOut2 token2 (some log2)).deviceCode = "" := by
  have hpair : ∀ (log' : String), latestNonEmptyLine log' = latestNonEmptyLine log →
      tunnelLogAuthPair log' = (false, "") := by
    intro log' hsame
    unfold tunnelLogAuthPair
    rw [hsame, if_neg (by rw [h1]; exact Bool.false_ne_true),
      if_neg (fun hx => hx h2)]
  have hauth : (checkTunnelHealth pidOut token (some log)).authRequired = false := by
    have : (checkTunnelHealth pidOut token (some log)).authRequired =
        (tunnelLogAuthPair log).1 := rfl
    rw [this, hpair log rfl]
  refine ⟨hauth, ?_, ?_⟩
  · unfold evaluateHealth
    rw [hauth]
    split_ifs <;> first | contradiction | decide
  · intro pidOut2 token2 log2 hsame
    have e1 : (checkTunnelHealth pidOut2 token2 (some log2)).authRequired =
        (tunnelLogAuthPair log2).1 := rfl
    have e2 : (checkTunnelHealth pidOut2 token2 (some log2)).deviceCode =
        (tunnelLogAuthPair log2).2 := rfl
    rw [e1, e2, hpair log2 hsame]
    exact ⟨rfl, rfl⟩

/-- Witness for C6's amended statement at the spec's S4 log (auth prompt
superseded by the browser-link line). -/
theorem auth_detection_latest_line_only_witness :
    (checkTunnelHealth (some "alive") false
        (some "To grant access to the server, please log into https://github.com/login/device and use code ABCD-EFGH\nOpen this link in your browser https://vscode.dev/tunnel/ws")).authRequired =
      false ∧
    evaluateHealth (checkTunnelHealth (some "alive") false
        (some "To grant access to the server, please log into https://github.com/login/device and use code ABCD-EFGH\nOpen this link in your browser https://vscode.dev/tunnel/ws")) ≠
      tunnelStatusBlocked :=
  ⟨(auth_detection_latest_line_only (some "alive") false _ (by decide)
      (by decide)).1,
   (auth_detection_latest_line_only (some "alive") false _ (by decide)
      (by decide)).2.1⟩

/-- Counterexample to C6 as stated: an auth-prompt line followed by a
later non-empty non-prompt line that still contains an extractable device
code re-triggers `authRequired`, and the derived status is "blocked". -/
theorem auth_after_nonprompt_line_counterexample :
    authPromptLineMatches
        "To grant access to the server, please log into https://github.com/login/device and use code ABCD-EFGH" =
      true ∧
    authPromptLineMatches "please enter code ABCD-EFGH" = false ∧
    latestNonEmptyLine
        "To grant access to the server, please log into https://github.com/login/device and use code ABCD-EFGH\nplease enter code ABCD-EFGH" =
      "please enter code ABCD-EFGH" ∧
    (checkTunnelHealth (some "alive") false
        (some "To grant access to the server, please log into https://github.com/login/device and use code ABCD-EFGH\nplease enter code ABCD-EFGH")).authRequired =
      true ∧
    evaluateHealth (checkTunnelHealth (some "alive") false
        (some "To grant access to the server, please log into https://github.com/login/device and use code ABCD-EFGH\nplease enter code ABCD-EFGH")) =
      tunnelStatusBlocked := by
  decide
